import Mathlib

/-!
Shallow embedding of the AIVirtualMouse motion-descriptor core
(`src/MotionDescriptor.py`, with the loader of `src/MotionAnalyzer.py`).

Conventions of the embedding:
* pixel coordinates and wall-clock times are rationals (`ℚ`); the Python
  code reads the clock with `time.time()`, which we model by passing the
  current time `t` explicitly to the stateful operations;
* the two transcendental helpers `math.hypot` and `math.atan2` are kept
  abstract as a parameter record `MathOps`, so every definition stays
  executable and theorems quantify over the interpretation;
* Python's `None` becomes `Option`, a dict becomes a structure, the
  mutable `MotionDescriptor` object becomes explicit state passing of a
  `MotionDescriptorState`;
* list indexing `lmList[i]` is modelled with a default-valued lookup;
  every indexing site in the source is guarded by a length check, so the
  default is never observable.
-/

namespace AIVM

/-- Abstract interpretations of `math.hypot` and `math.atan2`. -/
structure MathOps where
  hypot : ℚ → ℚ → ℚ
  atan2 : ℚ → ℚ → ℚ

/-- One entry of `lmList`: a `[id, x, y]` landmark triple. -/
structure LM where
  idx : ℤ
  x : ℚ
  y : ℚ
deriving DecidableEq, Repr

/-- A 2D point (an `{x: , y: }` dict in the source). -/
structure Pt where
  x : ℚ
  y : ℚ
deriving DecidableEq, Repr

/-- The named landmark subset stored in a descriptor. -/
structure Landmarks where
  wrist : Pt
  thumb_tip : Pt
  index_tip : Pt
  middle_tip : Pt
  ring_tip : Pt
  pinky_tip : Pt
deriving DecidableEq, Repr

/-- The derived feature block of a descriptor. -/
structure Features where
  pinch_distance : ℚ
  hand_openness : ℚ
  hand_span : ℚ
  palm_center : Pt
deriving DecidableEq, Repr

/-- The velocity block (`vx`, `vy`, `magnitude`, `direction`). -/
structure Velocity where
  vx : ℚ
  vy : ℚ
  magnitude : ℚ
  direction : ℚ
deriving DecidableEq, Repr

/-- The normalized-coordinates block (landmarks plus palm center, scaled). -/
structure Normalized where
  wrist : Pt
  thumb_tip : Pt
  index_tip : Pt
  middle_tip : Pt
  ring_tip : Pt
  pinky_tip : Pt
  palm_center : Pt
deriving DecidableEq, Repr

/-- One motion descriptor (the dict built by `create_descriptor`). -/
structure Descriptor where
  timestamp : ℚ
  relative_time : ℚ
  frame_num : ℕ
  hand : String
  fingers_extended : List ℕ
  finger_count : ℕ
  handshape_code : String
  landmarks : Landmarks
  features : Features
  primitive : String
  velocity : Option Velocity
  normalized : Option Normalized
deriving DecidableEq, Repr

/-- The mutable state of a `MotionDescriptor` object. -/
structure MotionDescriptorState where
  motion_history : List Descriptor
  primitives_seen : List String
  recording_start_time : Option ℚ
deriving DecidableEq, Repr

/-- The state set up by `__init__`. -/
def initState : MotionDescriptorState :=
  { motion_history := [], primitives_seen := [], recording_start_time := none }

/-- Default landmark used by the out-of-range lookup (never observable:
each indexing site in the source is guarded by a length check). -/
def lmDefault : LM := { idx := 0, x := 0, y := 0 }

/-- `lmList[i]` with the default. -/
def lmGet (lmList : List LM) (i : ℕ) : LM := lmList.getD i lmDefault

/-- The `{x, y}` point of `lmList[i]`. -/
def ptOf (lmList : List LM) (i : ℕ) : Pt :=
  { x := (lmGet lmList i).x, y := (lmGet lmList i).y }

/-- `_encode_handshape`: `''.join(str(f) for f in fingers)`. -/
def encode_handshape (fingers : List ℕ) : String :=
  String.join (fingers.map (fun f => toString f))

/-- `_calculate_pinch`: thumb-tip to index-tip distance, 0.0 if short. -/
def calculate_pinch (ops : MathOps) (lmList : List LM) : ℚ :=
  if lmList.length < 9 then 0
  else
    ops.hypot ((lmGet lmList 8).x - (lmGet lmList 4).x)
      ((lmGet lmList 8).y - (lmGet lmList 4).y)

/-- `_calculate_openness`: `sum(fingers) / len(fingers)`. -/
def calculate_openness (fingers : List ℕ) : ℚ :=
  (fingers.sum : ℚ) / (fingers.length : ℚ)

/-- `_calculate_span`: thumb-tip to pinky-tip distance, 0.0 if short. -/
def calculate_span (ops : MathOps) (lmList : List LM) : ℚ :=
  if lmList.length < 21 then 0
  else
    ops.hypot ((lmGet lmList 20).x - (lmGet lmList 4).x)
      ((lmGet lmList 20).y - (lmGet lmList 4).y)

/-- `_calculate_palm_center`: midpoint of wrist and middle-finger base,
`{x: 0, y: 0}` if short. -/
def calculate_palm_center (lmList : List LM) : Pt :=
  if lmList.length < 10 then { x := 0, y := 0 }
  else
    { x := ((lmGet lmList 0).x + (lmGet lmList 9).x) / 2,
      y := ((lmGet lmList 0).y + (lmGet lmList 9).y) / 2 }

/-- `_calculate_velocity`: index-tip velocity against the last stored
descriptor; `t` models the `time.time()` read inside the method. -/
def calculate_velocity (ops : MathOps) (s : MotionDescriptorState) (t : ℚ)
    (lmList : List LM) : Option Velocity :=
  match s.motion_history.getLast? with
  | none => none
  | some prev =>
    if lmList.length < 9 then none
    else
      let dt := t - prev.timestamp
      if dt = 0 then none
      else
        let vx := ((lmGet lmList 8).x - prev.landmarks.index_tip.x) / dt
        let vy := ((lmGet lmList 8).y - prev.landmarks.index_tip.y) / dt
        some { vx := vx, vy := vy, magnitude := ops.hypot vx vy,
               direction := ops.atan2 vy vx }

/-- `_classify_primitive`: the sequential if/elif rule chain. -/
def classify_primitive (ops : MathOps) (fingers : List ℕ) (lmList : List LM) :
    String :=
  if fingers = [0, 1, 0, 0, 0] then "POINT"
  else if fingers = [0, 1, 1, 0, 0] then "PEACE_V"
  else if fingers = [1, 1, 1, 1, 1] then "OPEN_HAND"
  else if fingers.sum = 0 then "FIST"
  else if fingers = [1, 0, 0, 0, 0] then "THUMBS_UP"
  else if fingers = [1, 1, 0, 0, 0] then
    (if calculate_pinch ops lmList < 40 then "OK_SIGN" else "PINCH_READY")
  else if fingers = [0, 1, 1, 1, 0] then "THREE"
  else if fingers = [0, 1, 1, 1, 1] then "FOUR"
  else if fingers = [0, 0, 0, 0, 1] then "PINKY"
  else "UNKNOWN_" ++ encode_handshape fingers

/-- Scale a point by a `(height, width)` frame shape. -/
def normPt (p : Pt) (frame_shape : ℚ × ℚ) : Pt :=
  { x := p.x / frame_shape.2, y := p.y / frame_shape.1 }

/-- `_normalize_coordinates`: named landmarks plus palm center, each
divided by `(width, height)`. -/
def normalize_coordinates (lms : Landmarks) (palm : Pt)
    (frame_shape : ℚ × ℚ) : Normalized :=
  { wrist := normPt lms.wrist frame_shape,
    thumb_tip := normPt lms.thumb_tip frame_shape,
    index_tip := normPt lms.index_tip frame_shape,
    middle_tip := normPt lms.middle_tip frame_shape,
    ring_tip := normPt lms.ring_tip frame_shape,
    pinky_tip := normPt lms.pinky_tip frame_shape,
    palm_center := normPt palm frame_shape }

/-- Python set insertion for `primitives_seen` (membership semantics). -/
def addPrimitive (ps : List String) (p : String) : List String :=
  if p ∈ ps then ps else ps ++ [p]

/-- `create_descriptor`: validate the frame, build the descriptor dict,
record the primitive, append to the history.  `t` models the
`time.time()` call of the tick.  Returns the descriptor (or `none` for an
invalid frame) together with the updated object state. -/
def create_descriptor (ops : MathOps) (s : MotionDescriptorState) (t : ℚ)
    (lmList : List LM) (fingers : List ℕ) (frame_shape : Option (ℚ × ℚ)) :
    Option Descriptor × MotionDescriptorState :=
  if lmList.isEmpty ∨ lmList.length < 21 then (none, s)
  else if fingers.isEmpty ∨ fingers.length ≠ 5 then (none, s)
  else
    let start := s.recording_start_time.getD t
    let d0 : Descriptor :=
      { timestamp := t,
        relative_time := t - start,
        frame_num := s.motion_history.length,
        hand := "right",
        fingers_extended := fingers,
        finger_count := fingers.sum,
        handshape_code := encode_handshape fingers,
        landmarks :=
          { wrist := ptOf lmList 0, thumb_tip := ptOf lmList 4,
            index_tip := ptOf lmList 8, middle_tip := ptOf lmList 12,
            ring_tip := ptOf lmList 16, pinky_tip := ptOf lmList 20 },
        features :=
          { pinch_distance := calculate_pinch ops lmList,
            hand_openness := calculate_openness fingers,
            hand_span := calculate_span ops lmList,
            palm_center := calculate_palm_center lmList },
        primitive := classify_primitive ops fingers lmList,
        velocity :=
          if 0 < s.motion_history.length then calculate_velocity ops s t lmList
          else none,
        normalized := none }
    let d :=
      match frame_shape with
      | some fs =>
        { d0 with
          normalized :=
            some (normalize_coordinates d0.landmarks d0.features.palm_center fs) }
      | none => d0
    (some d,
      { motion_history := s.motion_history ++ [d],
        primitives_seen := addPrimitive s.primitives_seen d.primitive,
        recording_start_time := some start })

/-- `clear_history`: reset history, primitive set and session start. -/
def clear_history (_s : MotionDescriptorState) : MotionDescriptorState :=
  { motion_history := [], primitives_seen := [], recording_start_time := none }

/-- `get_motion_sequence`: descriptors within `window_seconds` of `now`. -/
def get_motion_sequence (s : MotionDescriptorState) (now window_seconds : ℚ) :
    List Descriptor :=
  if s.motion_history.isEmpty then []
  else s.motion_history.filter (fun m => now - window_seconds < m.timestamp)

/-- `get_primitive_sequence`. -/
def get_primitive_sequence (s : MotionDescriptorState)
    (now window_seconds : ℚ) : List String :=
  (get_motion_sequence s now window_seconds).map (fun m => m.primitive)

/-- The velocity-statistics block of `get_statistics`. -/
structure VelocityStats where
  mean : ℚ
  max : ℚ
  min : ℚ
deriving DecidableEq, Repr

/-- The dict returned by `get_statistics` on a non-empty history. -/
structure StatsData where
  duration_seconds : ℚ
  total_frames : ℕ
  average_fps : ℚ
  primitive_counts : List (String × ℕ)
  unique_primitives : ℕ
  velocity_stats : Option VelocityStats
deriving DecidableEq, Repr

/-- Result of `get_statistics`: the `{'error': 'No motion history'}` dict
or the statistics dict. -/
inductive StatsResult where
  | noData : StatsResult
  | stats : StatsData → StatsResult
deriving DecidableEq, Repr

/-- `max` of a non-empty list of rationals (Python `max(list)`). -/
def listMax : List ℚ → ℚ
  | [] => 0
  | v :: vs => vs.foldl max v

/-- `min` of a non-empty list of rationals (Python `min(list)`). -/
def listMin : List ℚ → ℚ
  | [] => 0
  | v :: vs => vs.foldl min v

/-- `get_statistics`. -/
def get_statistics (s : MotionDescriptorState) : StatsResult :=
  match s.motion_history.head?, s.motion_history.getLast? with
  | some first, some last =>
    let duration := last.timestamp - first.timestamp
    let fps :=
      if 0 < duration then (s.motion_history.length : ℚ) / duration else 0
    let primitives := s.motion_history.map (fun m => m.primitive)
    let uniq := primitives.dedup
    let velocities :=
      s.motion_history.filterMap (fun m => m.velocity.map (fun v => v.magnitude))
    .stats
      { duration_seconds := duration,
        total_frames := s.motion_history.length,
        average_fps := fps,
        primitive_counts := uniq.map (fun p => (p, primitives.count p)),
        unique_primitives := uniq.length,
        velocity_stats :=
          if velocities.isEmpty then none
          else
            some { mean := velocities.sum / (velocities.length : ℚ),
                   max := listMax velocities, min := listMin velocities } }
  | _, _ => .noData

/-- The `metadata` block of a saved session record. -/
structure Metadata where
  gesture_name : String
  recorded_at : String
  duration_seconds : ℚ
  total_frames : ℕ
  average_fps : ℚ
  primitives_used : List String
  custom : List (String × String)
deriving DecidableEq, Repr

/-- The record `save_sequence` serializes (`{'metadata': ..., 'frames': ...}`). -/
structure SessionRecord where
  metadata : Metadata
  frames : List Descriptor
deriving DecidableEq, Repr

/-- The empty-history failure of `save_sequence` (signalled in the source
by the warning message and an early return with no file written). -/
inductive SaveError where
  | emptyHistory : SaveError
deriving DecidableEq, Repr

/-- `save_sequence`: the record written to the JSON file, or the
empty-history failure.  `recorded_at` models `datetime.now().isoformat()`
and `custom` the optional metadata argument. -/
def save_sequence (s : MotionDescriptorState) (gesture_name : String)
    (recorded_at : String) (custom : List (String × String)) :
    Except SaveError SessionRecord :=
  match s.motion_history.head?, s.motion_history.getLast? with
  | some first, some last =>
    let duration := last.timestamp - first.timestamp
    let fps :=
      if 0 < duration then (s.motion_history.length : ℚ) / duration else 0
    .ok
      { metadata :=
          { gesture_name := gesture_name,
            recorded_at := recorded_at,
            duration_seconds := duration,
            total_frames := s.motion_history.length,
            average_fps := fps,
            primitives_used := s.primitives_seen,
            custom := custom },
        frames := s.motion_history }
  | _, _ => .error .emptyHistory

/-- A JSON value, the shape `json.dump` writes and `json.load` reads. -/
inductive JVal where
  | jnull : JVal
  | jbool : Bool → JVal
  | jnum : ℚ → JVal
  | jstr : String → JVal
  | jarr : List JVal → JVal
  | jobj : List (String × JVal) → JVal

/-- JSON encoding of a point. -/
def ptJ (p : Pt) : JVal := .jobj [("x", .jnum p.x), ("y", .jnum p.y)]

/-- JSON encoding of the landmark block. -/
def landmarksJ (l : Landmarks) : JVal :=
  .jobj
    [("wrist", ptJ l.wrist), ("thumb_tip", ptJ l.thumb_tip),
     ("index_tip", ptJ l.index_tip), ("middle_tip", ptJ l.middle_tip),
     ("ring_tip", ptJ l.ring_tip), ("pinky_tip", ptJ l.pinky_tip)]

/-- JSON encoding of the feature block. -/
def featuresJ (f : Features) : JVal :=
  .jobj
    [("pinch_distance", .jnum f.pinch_distance),
     ("hand_openness", .jnum f.hand_openness),
     ("hand_span", .jnum f.hand_span),
     ("palm_center", ptJ f.palm_center)]

/-- JSON encoding of the velocity block (`null` when absent). -/
def velocityJ : Option Velocity → JVal
  | none => .jnull
  | some v =>
    .jobj
      [("vx", .jnum v.vx), ("vy", .jnum v.vy),
       ("magnitude", .jnum v.magnitude), ("direction", .jnum v.direction)]

/-- JSON encoding of the normalized block. -/
def normalizedJ (n : Normalized) : JVal :=
  .jobj
    [("wrist", ptJ n.wrist), ("thumb_tip", ptJ n.thumb_tip),
     ("index_tip", ptJ n.index_tip), ("middle_tip", ptJ n.middle_tip),
     ("ring_tip", ptJ n.ring_tip), ("pinky_tip", ptJ n.pinky_tip),
     ("palm_center", ptJ n.palm_center)]

/-- JSON encoding of one descriptor dict. -/
def descriptorJ (d : Descriptor) : JVal :=
  .jobj
    ([("timestamp", .jnum d.timestamp),
      ("relative_time", .jnum d.relative_time),
      ("frame_num", .jnum (d.frame_num : ℚ)),
      ("hand", .jstr d.hand),
      ("fingers_extended", .jarr (d.fingers_extended.map (fun f => .jnum (f : ℚ)))),
      ("finger_count", .jnum (d.finger_count : ℚ)),
      ("handshape_code", .jstr d.handshape_code),
      ("landmarks", landmarksJ d.landmarks),
      ("features", featuresJ d.features),
      ("primitive", .jstr d.primitive),
      ("velocity", velocityJ d.velocity)] ++
     (match d.normalized with
      | some n => [("normalized", normalizedJ n)]
      | none => []))

/-- JSON encoding of the metadata block. -/
def metadataJ (m : Metadata) : JVal :=
  .jobj
    [("gesture_name", .jstr m.gesture_name),
     ("recorded_at", .jstr m.recorded_at),
     ("duration_seconds", .jnum m.duration_seconds),
     ("total_frames", .jnum (m.total_frames : ℚ)),
     ("average_fps", .jnum m.average_fps),
     ("primitives_used", .jarr (m.primitives_used.map (fun p => .jstr p))),
     ("custom", .jobj (m.custom.map (fun kv => (kv.1, .jstr kv.2))))]

/-- JSON encoding of the whole saved session record. -/
def recordJ (r : SessionRecord) : JVal :=
  .jobj [("metadata", metadataJ r.metadata),
         ("frames", .jarr (r.frames.map descriptorJ))]

/-- `MotionAnalyzer._load_data`'s structural validation: accept an object
with both a `metadata` and a `frames` field, reject everything else. -/
def load_data (j : JVal) : Option JVal :=
  match j with
  | .jobj fields =>
    if (fields.lookup "metadata").isNone ∨ (fields.lookup "frames").isNone
    then none else some j
  | _ => none

/-- `data['metadata']['total_frames']` as read by the analyzer. -/
def record_total_frames (j : JVal) : Option ℚ :=
  match j with
  | .jobj fields =>
    match fields.lookup "metadata" with
    | some (.jobj ms) =>
      match ms.lookup "total_frames" with
      | some (.jnum n) => some n
      | _ => none
    | _ => none
  | _ => none

/-- `frame['primitive']` as read by the analyzer. -/
def frame_primitive (j : JVal) : Option String :=
  match j with
  | .jobj fields =>
    match fields.lookup "primitive" with
    | some (.jstr p) => some p
    | _ => none
  | _ => none

/-- The `primitive` labels of a list of frame objects, all or nothing. -/
def primLabels : List JVal → Option (List String)
  | [] => some []
  | j :: rest =>
    match frame_primitive j, primLabels rest with
    | some p, some ps => some (p :: ps)
    | _, _ => none

/-- `[f['primitive'] for f in data['frames']]` as read by the analyzer. -/
def record_frame_primitives (j : JVal) : Option (List String) :=
  match j with
  | .jobj fields =>
    match fields.lookup "frames" with
    | some (.jarr l) => primLabels l
    | _ => none
  | _ => none

/-- Modelled from the spec: the ordered rule table of §4.2; each rule is a
predicate on the finger vector and pinch distance, with its label. -/
def spec_rules : List ((List ℕ → ℚ → Bool) × (List ℕ → ℚ → String)) :=
  [(fun f _ => f == [0, 1, 0, 0, 0], fun _ _ => "POINT"),
   (fun f _ => f == [0, 1, 1, 0, 0], fun _ _ => "PEACE_V"),
   (fun f _ => f == [1, 1, 1, 1, 1], fun _ _ => "OPEN_HAND"),
   (fun f _ => f.sum == 0, fun _ _ => "FIST"),
   (fun f _ => f == [1, 0, 0, 0, 0], fun _ _ => "THUMBS_UP"),
   (fun f _ => f == [1, 1, 0, 0, 0],
    fun _ p => if p < 40 then "OK_SIGN" else "PINCH_READY"),
   (fun f _ => f == [0, 1, 1, 1, 0], fun _ _ => "THREE"),
   (fun f _ => f == [0, 1, 1, 1, 1], fun _ _ => "FOUR"),
   (fun f _ => f == [0, 0, 0, 0, 1], fun _ _ => "PINKY")]

/-- Modelled from the spec: first-match evaluation of an ordered rule
table, falling through to the `UNKNOWN_` label of rule 10. -/
def firstMatchLabel :
    List ((List ℕ → ℚ → Bool) × (List ℕ → ℚ → String)) → List ℕ → ℚ → String
  | [], f, _ => "UNKNOWN_" ++ encode_handshape f
  | (c, lab) :: rest, f, p =>
    if c f p then lab f p else firstMatchLabel rest f p

/-- Modelled from the spec: `classify(fingers, pinch_distance)` as the
first matching rule of the precedence table. -/
def specClassify (fingers : List ℕ) (pinch : ℚ) : String :=
  firstMatchLabel spec_rules fingers pinch

/-- A finger vector matched by one of rules 1-9 of the table. -/
def ruleHandled (f : List ℕ) : Prop :=
  f = [0, 1, 0, 0, 0] ∨ f = [0, 1, 1, 0, 0] ∨ f = [1, 1, 1, 1, 1] ∨
  f.sum = 0 ∨ f = [1, 0, 0, 0, 0] ∨ f = [1, 1, 0, 0, 0] ∨
  f = [0, 1, 1, 1, 0] ∨ f = [0, 1, 1, 1, 1] ∨ f = [0, 0, 0, 0, 1]

instance : DecidablePred ruleHandled := fun f => by
  unfold ruleHandled; infer_instance

/-- A binary finger vector: every flag is 0 or 1. -/
def IsBinary (fingers : List ℕ) : Prop := ∀ x ∈ fingers, x ≤ 1

instance : DecidablePred IsBinary := fun f => by
  unfold IsBinary; infer_instance

/-- States reachable from a fresh `MotionDescriptor()` object by any
sequence of `create_descriptor` and `clear_history` calls. -/
inductive Reachable : MotionDescriptorState → Prop where
  | init : Reachable initState
  | create (ops : MathOps) (s : MotionDescriptorState) (t : ℚ)
      (lmList : List LM) (fingers : List ℕ) (fs : Option (ℚ × ℚ)) :
      Reachable s → Reachable (create_descriptor ops s t lmList fingers fs).2
  | clear (s : MotionDescriptorState) :
      Reachable s → Reachable (clear_history s)

/-- Interpretation sending both transcendental helpers to zero. -/
def ops0 : MathOps := { hypot := fun _ _ => 0, atan2 := fun _ _ => 0 }

/-- Interpretation of `hypot` as plain addition: it agrees with the true
Euclidean norm on axis-aligned differences with non-negative entries. -/
def opsAdd : MathOps := { hypot := fun a b => a + b, atan2 := fun _ _ => 0 }

/-- A concrete valid 21-point landmark list. -/
def lm21 : List LM :=
  (List.range 21).map (fun i => { idx := (i : ℤ), x := (i : ℚ), y := 0 })

/-- A 9-point landmark list whose thumb tip sits at the origin and whose
index tip sits at `(d, 0)`, so the pinch distance is `hypot d 0`. -/
def lmLine (d : ℚ) : List LM :=
  [{ idx := 0, x := 0, y := 0 }, { idx := 1, x := 0, y := 0 },
   { idx := 2, x := 0, y := 0 }, { idx := 3, x := 0, y := 0 },
   { idx := 4, x := 0, y := 0 }, { idx := 5, x := 0, y := 0 },
   { idx := 6, x := 0, y := 0 }, { idx := 7, x := 0, y := 0 },
   { idx := 8, x := d, y := 0 }]

/-- State after one valid open-hand frame at time 1. -/
def s1 : MotionDescriptorState :=
  (create_descriptor ops0 initState 1 lm21 [1, 1, 1, 1, 1] none).2

/-- A throwaway descriptor used as the default of guarded list reads. -/
def dfltD : Descriptor :=
  { timestamp := 0, relative_time := 0, frame_num := 0, hand := "right",
    fingers_extended := [], finger_count := 0, handshape_code := "",
    landmarks :=
      { wrist := { x := 0, y := 0 }, thumb_tip := { x := 0, y := 0 },
        index_tip := { x := 0, y := 0 }, middle_tip := { x := 0, y := 0 },
        ring_tip := { x := 0, y := 0 }, pinky_tip := { x := 0, y := 0 } },
    features :=
      { pinch_distance := 0, hand_openness := 0, hand_span := 0,
        palm_center := { x := 0, y := 0 } },
    primitive := "", velocity := none, normalized := none }

/-! ## Helper lemmas -/

lemma foldl_append_data (l : List String) (s : String) :
    (l.foldl (· ++ ·) s).data = s.data ++ (l.map String.data).flatten := by
  induction l generalizing s with
  | nil => simp
  | cons a t ih => simp [List.foldl, ih, String.data_append]

lemma join_data (l : List String) :
    (String.join l).data = (l.map String.data).flatten := by
  simpa [String.join] using foldl_append_data l ""

lemma toString_binary {n : ℕ} (h : n ≤ 1) :
    (toString n).data = [if n = 0 then '0' else '1'] := by
  interval_cases n <;> decide

lemma encode_data {f : List ℕ} (hb : IsBinary f) :
    (encode_handshape f).data =
      f.map (fun n => if n = 0 then '0' else '1') := by
  induction f with
  | nil => decide
  | cons a t ih =>
    have ha : a ≤ 1 := hb a (by simp)
    have ht : IsBinary t := fun x hx => hb x (by simp [hx])
    simp [encode_handshape, join_data] at ih ⊢
    simp [toString_binary ha, ih ht]

lemma binary_char_inj {a b : ℕ} (ha : a ≤ 1) (hb : b ≤ 1)
    (h : (if a = 0 then '0' else '1') = (if b = 0 then '0' else '1')) :
    a = b := by
  interval_cases a <;> interval_cases b <;> simp_all

lemma encode_inj {f g : List ℕ} (hf : IsBinary f) (hg : IsBinary g)
    (h : encode_handshape f = encode_handshape g) : f = g := by
  have hd : (encode_handshape f).data = (encode_handshape g).data := by rw [h]
  rw [encode_data hf, encode_data hg] at hd
  clear h
  induction f generalizing g with
  | nil =>
    cases g with
    | nil => rfl
    | cons b t => simp at hd
  | cons a t ih =>
    cases g with
    | nil => simp at hd
    | cons b u =>
      simp only [List.map_cons, List.cons.injEq] at hd
      have ha : a ≤ 1 := hf a (by simp)
      have hb : b ≤ 1 := hg b (by simp)
      have hab : a = b := binary_char_inj ha hb hd.1
      subst hab
      have ht := ih (fun x hx => hf x (by simp [hx]))
        (fun x hx => hg x (by simp [hx])) hd.2
      rw [ht]

lemma unknown_label_cancel {s t : String}
    (h : "UNKNOWN_" ++ s = "UNKNOWN_" ++ t) : s = t := by
  have hd : ("UNKNOWN_" ++ s).data = ("UNKNOWN_" ++ t).data := by rw [h]
  rw [String.data_append, String.data_append] at hd
  exact String.ext (List.append_cancel_left hd)

lemma classify_unmatched (ops : MathOps) (fingers : List ℕ) (lmList : List LM)
    (h : ¬ ruleHandled fingers) :
    classify_primitive ops fingers lmList =
      "UNKNOWN_" ++ encode_handshape fingers := by
  unfold ruleHandled at h
  push_neg at h
  obtain ⟨h1, h2, h3, h4, h5, h6, h7, h8, h9⟩ := h
  simp [classify_primitive, h1, h2, h3, h4, h5, h6, h7, h8, h9]

lemma classify_fist (ops : MathOps) (fingers : List ℕ) (lmList : List LM)
    (h : fingers.sum = 0) : classify_primitive ops fingers lmList = "FIST" := by
  have h1 : fingers ≠ [0, 1, 0, 0, 0] := by rintro rfl; simp at h
  have h2 : fingers ≠ [0, 1, 1, 0, 0] := by rintro rfl; simp at h
  have h3 : fingers ≠ [1, 1, 1, 1, 1] := by rintro rfl; simp at h
  simp [classify_primitive, h1, h2, h3, h]

lemma create_invalid (ops : MathOps) (s : MotionDescriptorState) (t : ℚ)
    (lmList : List LM) (fingers : List ℕ) (fs : Option (ℚ × ℚ))
    (h : lmList.length < 21 ∨ fingers.length ≠ 5) :
    create_descriptor ops s t lmList fingers fs = (none, s) := by
  unfold create_descriptor
  rcases h with h | h
  · rw [if_pos (Or.inr h : _ ∨ _)]
  · by_cases h21 : lmList.isEmpty ∨ lmList.length < 21
    · rw [if_pos h21]
    · rw [if_neg h21, if_pos (Or.inr h : _ ∨ _)]

lemma create_valid (ops : MathOps) (s : MotionDescriptorState) (t : ℚ)
    (lmList : List LM) (fingers : List ℕ) (fs : Option (ℚ × ℚ))
    (h21 : 21 ≤ lmList.length) (h5 : fingers.length = 5) :
    ∃ d, create_descriptor ops s t lmList fingers fs =
      (some d,
        { motion_history := s.motion_history ++ [d],
          primitives_seen := addPrimitive s.primitives_seen d.primitive,
          recording_start_time := some (s.recording_start_time.getD t) }) ∧
      d.frame_num = s.motion_history.length ∧
      d.timestamp = t ∧
      d.primitive = classify_primitive ops fingers lmList ∧
      d.velocity =
        (if 0 < s.motion_history.length then calculate_velocity ops s t lmList
         else none) := by
  have hne : ¬ (lmList.isEmpty ∨ lmList.length < 21) := by
    simp only [List.isEmpty_iff_length_eq_zero]
    omega
  have hne2 : ¬ (fingers.isEmpty ∨ fingers.length ≠ 5) := by
    simp only [List.isEmpty_iff_length_eq_zero]
    omega
  unfold create_descriptor
  rw [if_neg hne, if_neg hne2]
  cases fs with
  | none => exact ⟨_, rfl, rfl, rfl, rfl, rfl⟩
  | some f => exact ⟨_, rfl, rfl, rfl, rfl, rfl⟩

lemma create_state_cases (ops : MathOps) (s : MotionDescriptorState) (t : ℚ)
    (lmList : List LM) (fingers : List ℕ) (fs : Option (ℚ × ℚ)) :
    (create_descriptor ops s t lmList fingers fs).2 = s ∨
    ∃ d, (create_descriptor ops s t lmList fingers fs).2.motion_history =
        s.motion_history ++ [d] ∧ d.frame_num = s.motion_history.length := by
  by_cases h21 : lmList.length < 21
  · left; rw [create_invalid ops s t lmList fingers fs (Or.inl h21)]
  · by_cases h5 : fingers.length = 5
    · right
      obtain ⟨d, heq, hfn, -⟩ :=
        create_valid ops s t lmList fingers fs (Nat.le_of_not_lt h21) h5
      exact ⟨d, by rw [heq], hfn⟩
    · left; rw [create_invalid ops s t lmList fingers fs (Or.inr h5)]

lemma reachable_frame_nums {s : MotionDescriptorState} (h : Reachable s) :
    s.motion_history.map (fun d => d.frame_num) =
      List.range s.motion_history.length := by
  induction h with
  | init => rfl
  | clear s' _ _ => rfl
  | create ops s' t lmList fingers fs _ ih =>
    rcases create_state_cases ops s' t lmList fingers fs with heq | ⟨d, heq, hfn⟩
    · rw [heq]; exact ih
    · rw [heq]
      simp only [List.map_append, List.length_append, List.map_cons,
        List.map_nil, List.length_cons, List.length_nil, ih, hfn]
      rw [List.range_succ]

lemma reachable_frame_num_at {s : MotionDescriptorState} (h : Reachable s)
    (i : ℕ) (hi : i < s.motion_history.length) :
    (s.motion_history[i]).frame_num = i := by
  have hm := reachable_frame_nums h
  have h1 : (s.motion_history.map (fun d => d.frame_num))[i]? = some i := by
    rw [hm]
    exact List.getElem?_range hi
  have h2 : (s.motion_history.map (fun d => d.frame_num))[i]? =
      some ((s.motion_history[i]).frame_num) := by
    simp [List.getElem?_eq_getElem hi]
  rw [h2] at h1
  exact Option.some.inj h1

lemma reachable_pairwise {s : MotionDescriptorState} (h : Reachable s) :
    s.motion_history.Pairwise (fun a b => a.frame_num < b.frame_num) := by
  have hm := reachable_frame_nums h
  have hp : (s.motion_history.map (fun d => d.frame_num)).Pairwise (· < ·) := by
    rw [hm]
    exact List.pairwise_lt_range _
  exact List.pairwise_map.mp hp

lemma velocity_char (ops : MathOps) (s : MotionDescriptorState) (t : ℚ)
    (lmList : List LM) (h9 : 9 ≤ lmList.length) :
    (s.motion_history = [] → calculate_velocity ops s t lmList = none) ∧
    (∀ prev, s.motion_history.getLast? = some prev →
      calculate_velocity ops s t lmList =
        (if t - prev.timestamp = 0 then none
         else
           some { vx := ((lmGet lmList 8).x - prev.landmarks.index_tip.x) /
                    (t - prev.timestamp),
                  vy := ((lmGet lmList 8).y - prev.landmarks.index_tip.y) /
                    (t - prev.timestamp),
                  magnitude := ops.hypot
                    (((lmGet lmList 8).x - prev.landmarks.index_tip.x) /
                      (t - prev.timestamp))
                    (((lmGet lmList 8).y - prev.landmarks.index_tip.y) /
                      (t - prev.timestamp)),
                  direction := ops.atan2
                    (((lmGet lmList 8).y - prev.landmarks.index_tip.y) /
                      (t - prev.timestamp))
                    (((lmGet lmList 8).x - prev.landmarks.index_tip.x) /
                      (t - prev.timestamp)) })) := by
  constructor
  · intro hemp
    simp [calculate_velocity, hemp]
  · intro prev hp
    have h9' : ¬ (lmList.length < 9) := by omega
    simp only [calculate_velocity, hp, h9', if_false]

lemma frame_primitive_descriptorJ (d : Descriptor) :
    frame_primitive (descriptorJ d) = some d.primitive := by
  cases d.normalized <;> rfl

lemma primLabels_map (l : List Descriptor) :
    primLabels (l.map descriptorJ) = some (l.map (fun d => d.primitive)) := by
  induction l with
  | nil => rfl
  | cons a t ih =>
    simp [primLabels, frame_primitive_descriptorJ, ih]

lemma load_data_recordJ (r : SessionRecord) :
    load_data (recordJ r) = some (recordJ r) := rfl

lemma record_total_frames_recordJ (r : SessionRecord) :
    record_total_frames (recordJ r) = some (r.metadata.total_frames : ℚ) := rfl

lemma record_frame_primitives_recordJ (r : SessionRecord) :
    record_frame_primitives (recordJ r) =
      some (r.frames.map (fun d => d.primitive)) := by
  simp [record_frame_primitives, recordJ, primLabels_map, List.lookup]

lemma save_nonempty (s : MotionDescriptorState) (g ra : String)
    (c : List (String × String)) (hne : s.motion_history ≠ []) :
    ∃ rec, save_sequence s g ra c = .ok rec ∧
      rec.frames = s.motion_history ∧
      rec.metadata.total_frames = s.motion_history.length ∧
      rec.metadata.gesture_name = g := by
  cases hh : s.motion_history.head? with
  | none => exact absurd (List.head?_eq_none_iff.mp hh) hne
  | some first =>
    cases hl : s.motion_history.getLast? with
    | none => exact absurd (List.getLast?_eq_none_iff.mp hl) hne
    | some last =>
      refine
        ⟨{ metadata :=
             { gesture_name := g, recorded_at := ra,
               duration_seconds := last.timestamp - first.timestamp,
               total_frames := s.motion_history.length,
               average_fps :=
                 if 0 < last.timestamp - first.timestamp then
                   (s.motion_history.length : ℚ) /
                     (last.timestamp - first.timestamp)
                 else 0,
               primitives_used := s.primitives_seen, custom := c },
           frames := s.motion_history }, ?_, rfl, rfl, rfl⟩
      simp only [save_sequence, hh, hl]

/-! ## Claim theorems -/

/-- C2: invalid-frame rejection is atomic.  Whenever the landmark list has
fewer than 21 points or the finger-flag list does not have exactly 5
entries, `create_descriptor` returns `none` and the builder state is
returned unchanged: nothing is appended to `motion_history`, the
distinct-primitive set is unchanged, and the next frame index (the
history length) does not advance. -/
theorem invalid_frame_rejection_atomic (ops : MathOps)
    (s : MotionDescriptorState) (t : ℚ) (lmList : List LM)
    (fingers : List ℕ) (fs : Option (ℚ × ℚ))
    (h : lmList.length < 21 ∨ fingers.length ≠ 5) :
    create_descriptor ops s t lmList fingers fs = (none, s) ∧
    (create_descriptor ops s t lmList fingers fs).2.motion_history =
      s.motion_history ∧
    (create_descriptor ops s t lmList fingers fs).2.primitives_seen =
      s.primitives_seen ∧
    (create_descriptor ops s t lmList fingers fs).2.motion_history.length =
      s.motion_history.length := by
  have he := create_invalid ops s t lmList fingers fs h
  exact ⟨he, by rw [he], by rw [he], by rw [he]⟩

/-- C2 witness: a 10-point frame is rejected and the fresh state is
returned unchanged. -/
theorem invalid_frame_rejection_atomic_witness :
    create_descriptor ops0 initState 0 (lm21.take 10) [1, 1, 0, 0, 0] none =
      (none, initState) :=
  (invalid_frame_rejection_atomic ops0 initState 0 (lm21.take 10)
    [1, 1, 0, 0, 0] none (by decide)).1

/-- C3: the primitive classifier is total and evaluates the spec's rule
table in precedence order 1-10: it agrees with first-match evaluation of
the ordered table, every vector with `sum fingers = 0` yields FIST, every
vector matching none of rules 1-9 yields `UNKNOWN_` followed by the
handshape code, and distinct unmatched 5-element binary vectors get
distinct labels. -/
theorem classifier_total_precedence (ops : MathOps) (fingers g : List ℕ)
    (lmList lm2 : List LM) :
    classify_primitive ops fingers lmList =
      specClassify fingers (calculate_pinch ops lmList) ∧
    (fingers.sum = 0 → classify_primitive ops fingers lmList = "FIST") ∧
    (¬ ruleHandled fingers →
      classify_primitive ops fingers lmList =
        "UNKNOWN_" ++ encode_handshape fingers) ∧
    (fingers.length = 5 → g.length = 5 → IsBinary fingers → IsBinary g →
      ¬ ruleHandled fingers → ¬ ruleHandled g → fingers ≠ g →
      classify_primitive ops fingers lmList ≠
        classify_primitive ops g lm2) := by
  refine ⟨?_, fun h => classify_fist ops fingers lmList h,
    fun h => classify_unmatched ops fingers lmList h,
    fun _ _ hbf hbg hnf hng hne heq => ?_⟩
  · simp only [specClassify, spec_rules, firstMatchLabel, classify_primitive,
      beq_iff_eq, Nat.beq_eq_true_eq]
  · rw [classify_unmatched ops fingers lmList hnf,
      classify_unmatched ops g lm2 hng] at heq
    exact hne (encode_inj hbf hbg (unknown_label_cancel heq))

/-- C3 witness: two distinct unmatched binary vectors receive distinct
UNKNOWN labels. -/
theorem classifier_total_precedence_witness :
    classify_primitive ops0 [1, 0, 1, 0, 0] [] ≠
      classify_primitive ops0 [1, 0, 0, 1, 0] [] :=
  (classifier_total_precedence ops0 [1, 0, 1, 0, 0] [1, 0, 0, 1, 0] [] []).2.2.2
    (by decide) (by decide) (by decide) (by decide) (by decide) (by decide)
    (by decide)

/-- C7: export on an empty history fails with the empty-history condition
and produces no record. -/
theorem empty_history_export_fails (s : MotionDescriptorState) (g ra : String)
    (c : List (String × String)) (h : s.motion_history = []) :
    save_sequence s g ra c = .error .emptyHistory ∧
    ∀ rec, save_sequence s g ra c ≠ Except.ok rec := by
  have he : save_sequence s g ra c = .error .emptyHistory := by
    simp [save_sequence, h]
  exact ⟨he, fun rec hok => by rw [he] at hok; exact Except.noConfusion hok⟩

/-- C7 witness: a fresh object has an empty history and export fails. -/
theorem empty_history_export_fails_witness :
    save_sequence initState "g" "now" [] = .error .emptyHistory ∧
    ∀ rec, save_sequence initState "g" "now" [] ≠ Except.ok rec :=
  empty_history_export_fails initState "g" "now" [] rfl

/-- C9: feature derivation is total with the documented degenerate
defaults: for any landmark list, the pinch distance is 0 when the list is
too short for indices 4 and 8, the hand span is 0 when too short for
index 20, and the palm center is the origin when too short for index 9;
none of the helpers can fail on any input length. -/
theorem feature_defaults_total (ops : MathOps) (lmList : List LM) :
    (lmList.length < 9 → calculate_pinch ops lmList = 0) ∧
    (lmList.length < 21 → calculate_span ops lmList = 0) ∧
    (lmList.length < 10 → calculate_palm_center lmList = { x := 0, y := 0 }) := by
  refine ⟨fun h => ?_, fun h => ?_, fun h => ?_⟩
  · simp [calculate_pinch, h]
  · simp [calculate_span, h]
  · simp [calculate_palm_center, h]

/-- C9 witness: the degenerate defaults on the empty landmark list. -/
theorem feature_defaults_total_witness :
    calculate_pinch ops0 [] = 0 ∧ calculate_span ops0 [] = 0 ∧
    calculate_palm_center [] = { x := 0, y := 0 } :=
  ⟨(feature_defaults_total ops0 []).1 (by decide),
   (feature_defaults_total ops0 []).2.1 (by decide),
   (feature_defaults_total ops0 []).2.2 (by decide)⟩

/-- C4: pinch boundary law.  For the finger vector `[1,1,0,0,0]` the
classifier returns OK_SIGN exactly when the pinch distance is strictly
below 40 and PINCH_READY otherwise; with the index tip 39 pixels from the
thumb tip (so `hypot 39 0`) it returns OK_SIGN, and at 40 pixels it
returns PINCH_READY. -/
theorem pinch_boundary_ok_sign (ops : MathOps) (lmList : List LM) :
    classify_primitive ops [1, 1, 0, 0, 0] lmList =
      (if calculate_pinch ops lmList < 40 then "OK_SIGN" else "PINCH_READY") ∧
    (classify_primitive ops [1, 1, 0, 0, 0] lmList = "OK_SIGN" ↔
      calculate_pinch ops lmList < 40) ∧
    (ops.hypot 39 0 = 39 →
      classify_primitive ops [1, 1, 0, 0, 0] (lmLine 39) = "OK_SIGN") ∧
    (ops.hypot 40 0 = 40 →
      classify_primitive ops [1, 1, 0, 0, 0] (lmLine 40) = "PINCH_READY") := by
  have hmain : ∀ lm : List LM, classify_primitive ops [1, 1, 0, 0, 0] lm =
      (if calculate_pinch ops lm < 40 then "OK_SIGN" else "PINCH_READY") := by
    intro lm
    unfold classify_primitive
    rw [if_neg (by decide), if_neg (by decide), if_neg (by decide),
      if_neg (by decide), if_neg (by decide), if_pos rfl]
  have hpinch : ∀ d : ℚ, calculate_pinch ops (lmLine d) = ops.hypot d 0 := by
    intro d
    simp [calculate_pinch, lmLine, lmGet]
  refine ⟨hmain lmList, ?_, ?_, ?_⟩
  · rw [hmain lmList]
    split_ifs with h
    · simp [h]
    · constructor
      · intro hc
        exact absurd hc (by decide)
      · intro hc
        exact absurd hc h
  · intro h
    rw [hmain (lmLine 39), hpinch 39, h, if_pos (by norm_num)]
  · intro h
    rw [hmain (lmLine 40), hpinch 40, h, if_neg (by norm_num)]

/-- C4 witness: the boundary instances under an interpretation of `hypot`
that is exact on axis-aligned inputs. -/
theorem pinch_boundary_ok_sign_witness :
    classify_primitive opsAdd [1, 1, 0, 0, 0] (lmLine 39) = "OK_SIGN" ∧
    classify_primitive opsAdd [1, 1, 0, 0, 0] (lmLine 40) = "PINCH_READY" :=
  ⟨(pinch_boundary_ok_sign opsAdd (lmLine 39)).2.2.1 (by norm_num [opsAdd]),
   (pinch_boundary_ok_sign opsAdd (lmLine 40)).2.2.2 (by norm_num [opsAdd])⟩

/-- C5: velocity presence rule.  For every valid frame, the created
descriptor's velocity is `none` exactly when the history was empty at
build time or the elapsed time since the preceding descriptor is zero;
with a preceding descriptor and nonzero `dt` it is present with
`vx = (x - prev_x)/dt`, `vy = (y - prev_y)/dt`, `magnitude = hypot vx vy`
and `direction = atan2 vy vx`, computed from the index-finger tips. -/
theorem velocity_presence_rule (ops : MathOps) (s : MotionDescriptorState)
    (t : ℚ) (lmList : List LM) (fingers : List ℕ) (fs : Option (ℚ × ℚ))
    (h21 : 21 ≤ lmList.length) (h5 : fingers.length = 5) :
    ∃ d, (create_descriptor ops s t lmList fingers fs).1 = some d ∧
      (d.velocity = none ↔
        s.motion_history = [] ∨
        ∃ prev, s.motion_history.getLast? = some prev ∧
          t - prev.timestamp = 0) ∧
      (∀ prev, s.motion_history.getLast? = some prev →
        t - prev.timestamp ≠ 0 →
        d.velocity = some
          { vx := ((lmGet lmList 8).x - prev.landmarks.index_tip.x) /
              (t - prev.timestamp),
            vy := ((lmGet lmList 8).y - prev.landmarks.index_tip.y) /
              (t - prev.timestamp),
            magnitude := ops.hypot
              (((lmGet lmList 8).x - prev.landmarks.index_tip.x) /
                (t - prev.timestamp))
              (((lmGet lmList 8).y - prev.landmarks.index_tip.y) /
                (t - prev.timestamp)),
            direction := ops.atan2
              (((lmGet lmList 8).y - prev.landmarks.index_tip.y) /
                (t - prev.timestamp))
              (((lmGet lmList 8).x - prev.landmarks.index_tip.x) /
                (t - prev.timestamp)) }) := by
  obtain ⟨d, heq, -, -, -, hvel⟩ :=
    create_valid ops s t lmList fingers fs h21 h5
  have h9 : (9 : ℕ) ≤ lmList.length := by omega
  refine ⟨d, by rw [heq], ?_, ?_⟩
  · rw [hvel]
    by_cases hemp : s.motion_history = []
    · simp [hemp]
    · have hlen : 0 < s.motion_history.length := List.length_pos.mpr hemp
      rw [if_pos hlen]
      cases hl : s.motion_history.getLast? with
      | none => exact absurd (List.getLast?_eq_none_iff.mp hl) hemp
      | some prev =>
        rw [(velocity_char ops s t lmList h9).2 prev hl]
        by_cases hdt : t - prev.timestamp = 0
        · rw [if_pos hdt]
          simp [hemp, hl, hdt]
        · rw [if_neg hdt]
          simp [hemp, hl, hdt]
  · intro prev hl hdt
    have hemp : s.motion_history ≠ [] := by
      intro he
      rw [he] at hl
      simp at hl
    have hlen : 0 < s.motion_history.length := List.length_pos.mpr hemp
    rw [hvel, if_pos hlen, (velocity_char ops s t lmList h9).2 prev hl,
      if_neg hdt]

/-- C5 witness: the first descriptor of a session has no velocity. -/
theorem velocity_presence_rule_witness :
    ∃ d, (create_descriptor ops0 initState 0 lm21 [1, 1, 1, 1, 1] none).1 =
        some d ∧
      (d.velocity = none ↔
        initState.motion_history = [] ∨
        ∃ prev, initState.motion_history.getLast? = some prev ∧
          0 - prev.timestamp = 0) ∧
      (∀ prev, initState.motion_history.getLast? = some prev →
        0 - prev.timestamp ≠ 0 →
        d.velocity = some
          { vx := ((lmGet lm21 8).x - prev.landmarks.index_tip.x) /
              (0 - prev.timestamp),
            vy := ((lmGet lm21 8).y - prev.landmarks.index_tip.y) /
              (0 - prev.timestamp),
            magnitude := ops0.hypot
              (((lmGet lm21 8).x - prev.landmarks.index_tip.x) /
                (0 - prev.timestamp))
              (((lmGet lm21 8).y - prev.landmarks.index_tip.y) /
                (0 - prev.timestamp)),
            direction := ops0.atan2
              (((lmGet lm21 8).y - prev.landmarks.index_tip.y) /
                (0 - prev.timestamp))
              (((lmGet lm21 8).x - prev.landmarks.index_tip.x) /
                (0 - prev.timestamp)) }) :=
  velocity_presence_rule ops0 initState 0 lm21 [1, 1, 1, 1, 1] none
    (by decide) (by decide)

/-- C6 counterexample: the code performs no ordering check on append.
From the reachable one-frame state `s1` (captured at time 1), a second
valid frame at the earlier time 0 is accepted: `create_descriptor`
succeeds and the resulting history's capture times are `[1, 0]`, which is
decreasing — the claimed OutOfOrderAppend failure (leaving the history
unchanged) does not happen, and reachable histories need not have
non-decreasing capture_time. -/
theorem append_ordering_counterexample :
    Reachable s1 ∧
    s1.motion_history.map (fun d => d.timestamp) = [1] ∧
    (create_descriptor ops0 s1 0 lm21 [1, 1, 1, 1, 1] none).1.isSome = true ∧
    (create_descriptor ops0 s1 0 lm21 [1, 1, 1, 1, 1]
        none).2.motion_history.map (fun d => d.timestamp) = [1, 0] :=
  ⟨Reachable.create ops0 initState 1 lm21 [1, 1, 1, 1, 1] none Reachable.init,
   by decide, by decide, by decide⟩

/-- C6 amended: append performs no ordering check.  Every valid frame is
appended unconditionally, whatever its timestamp; the history is extended
(never rejected with OutOfOrderAppend), and every reachable history still
has strictly increasing frame_index, but non-decreasing capture_time is
not enforced. -/
theorem append_unchecked_frame_index (ops : MathOps)
    (s : MotionDescriptorState) (t : ℚ) (lmList : List LM)
    (fingers : List ℕ) (fs : Option (ℚ × ℚ)) (h21 : 21 ≤ lmList.length)
    (h5 : fingers.length = 5) (hr : Reachable s) :
    (∃ d, create_descriptor ops s t lmList fingers fs =
      (some d,
        { motion_history := s.motion_history ++ [d],
          primitives_seen := addPrimitive s.primitives_seen d.primitive,
          recording_start_time := some (s.recording_start_time.getD t) })) ∧
    (create_descriptor ops s t lmList fingers fs).2.motion_history.Pairwise
      (fun a b => a.frame_num < b.frame_num) := by
  obtain ⟨d, heq, -⟩ := create_valid ops s t lmList fingers fs h21 h5
  exact ⟨⟨d, heq⟩,
    reachable_pairwise (Reachable.create ops s t lmList fingers fs hr)⟩

/-- C6 amended witness: the out-of-order frame of the counterexample is
still appended and the frame indices stay strictly increasing. -/
theorem append_unchecked_frame_index_witness :
    (∃ d, create_descriptor ops0 s1 0 lm21 [1, 1, 1, 1, 1] none =
      (some d,
        { motion_history := s1.motion_history ++ [d],
          primitives_seen := addPrimitive s1.primitives_seen d.primitive,
          recording_start_time := some (s1.recording_start_time.getD 0) })) ∧
    (create_descriptor ops0 s1 0 lm21 [1, 1, 1, 1, 1]
        none).2.motion_history.Pairwise
      (fun a b => a.frame_num < b.frame_num) :=
  append_unchecked_frame_index ops0 s1 0 lm21 [1, 1, 1, 1, 1] none
    (by decide) (by decide)
    (Reachable.create ops0 initState 1 lm21 [1, 1, 1, 1, 1] none Reachable.init)

/-- C8: empty-history statistics are total.  After `clear_history` (which
empties the history, the primitive set and the session start time), and
for every empty history, `get_statistics` returns the explicit no-data
result; for a non-empty history it returns `duration_seconds` equal to
the last capture time minus the first (0 when there are fewer than 2
frames) and `average_fps = total_frames/duration` when the duration is
positive, else 0 — never dividing by zero. -/
theorem statistics_empty_total (s : MotionDescriptorState) :
    get_statistics (clear_history s) = .noData ∧
    (clear_history s).motion_history = [] ∧
    (clear_history s).primitives_seen = [] ∧
    (clear_history s).recording_start_time = none ∧
    (s.motion_history = [] → get_statistics s = .noData) ∧
    (∀ dFirst dLast, s.motion_history.head? = some dFirst →
      s.motion_history.getLast? = some dLast →
      ∃ data, get_statistics s = .stats data ∧
        data.duration_seconds = dLast.timestamp - dFirst.timestamp ∧
        data.total_frames = s.motion_history.length ∧
        data.average_fps =
          (if 0 < data.duration_seconds then
            (s.motion_history.length : ℚ) / data.duration_seconds
           else 0) ∧
        (s.motion_history.length < 2 → data.duration_seconds = 0)) := by
  refine ⟨rfl, rfl, rfl, rfl, fun h => by simp [get_statistics, h], ?_⟩
  intro dFirst dLast hh hl
  cases hq : get_statistics s with
  | noData =>
    simp only [get_statistics, hh, hl] at hq
    exact StatsResult.noConfusion hq
  | stats data =>
    simp only [get_statistics, hh, hl] at hq
    obtain rfl := StatsResult.stats.inj hq
    refine ⟨_, rfl, rfl, rfl, rfl, ?_⟩
    intro hlt
    have hne : s.motion_history ≠ [] := by
      intro he
      rw [he] at hh
      simp at hh
    have hlen : 0 < s.motion_history.length := List.length_pos.mpr hne
    have hone : s.motion_history.length = 1 := by omega
    obtain ⟨a, ha⟩ := List.length_eq_one.mp hone
    rw [ha] at hh hl
    simp only [List.head?_cons, Option.some.injEq] at hh
    simp only [List.getLast?_singleton, Option.some.injEq] at hl
    rw [← hh, ← hl]
    exact sub_self a.timestamp

/-- C8 witness: no-data after clearing the one-frame state `s1`, and the
statistics of `s1` itself. -/
theorem statistics_empty_total_witness :
    get_statistics (clear_history s1) = .noData ∧
    ∃ data, get_statistics s1 = .stats data ∧
      data.duration_seconds =
        (s1.motion_history.getLastD dfltD).timestamp -
          (s1.motion_history.headD dfltD).timestamp ∧
      data.total_frames = s1.motion_history.length ∧
      data.average_fps =
        (if 0 < data.duration_seconds then
          (s1.motion_history.length : ℚ) / data.duration_seconds
         else 0) ∧
      (s1.motion_history.length < 2 → data.duration_seconds = 0) :=
  ⟨(statistics_empty_total s1).1,
   (statistics_empty_total s1).2.2.2.2.2 (s1.motion_history.headD dfltD)
     (s1.motion_history.getLastD dfltD) (by rfl) (by rfl)⟩

/-- C1: round-trip of the serialization contract.  For every non-empty
history, exporting with `save_sequence` and validating/reading the
produced JSON record the way `MotionAnalyzer` does yields a record whose
metadata `total_frames` equals the history length, whose per-frame
`primitive` labels equal, in order, the primitives of the history, and
whose primitive occurrence counts equal those computed over the original
history. -/
theorem save_load_round_trip (s : MotionDescriptorState) (g ra : String)
    (c : List (String × String)) (hne : s.motion_history ≠ []) :
    ∃ rec, save_sequence s g ra c = .ok rec ∧
      load_data (recordJ rec) = some (recordJ rec) ∧
      record_total_frames (recordJ rec) =
        some (s.motion_history.length : ℚ) ∧
      record_frame_primitives (recordJ rec) =
        some (s.motion_history.map (fun d => d.primitive)) ∧
      (∀ labels, record_frame_primitives (recordJ rec) = some labels →
        ∀ p, labels.count p =
          (s.motion_history.map (fun d => d.primitive)).count p) := by
  obtain ⟨rec, hok, hframes, htot, -⟩ := save_nonempty s g ra c hne
  refine ⟨rec, hok, load_data_recordJ rec, ?_, ?_, ?_⟩
  · rw [record_total_frames_recordJ, htot]
  · rw [record_frame_primitives_recordJ, hframes]
  · intro labels hlab p
    rw [record_frame_primitives_recordJ, hframes] at hlab
    rw [← Option.some.inj hlab]

/-- C1 witness: the round trip at the concrete one-frame state `s1`. -/
theorem save_load_round_trip_witness :
    ∃ rec, save_sequence s1 "g" "now" [] = .ok rec ∧
      load_data (recordJ rec) = some (recordJ rec) ∧
      record_total_frames (recordJ rec) =
        some (s1.motion_history.length : ℚ) ∧
      record_frame_primitives (recordJ rec) =
        some (s1.motion_history.map (fun d => d.primitive)) ∧
      (∀ labels, record_frame_primitives (recordJ rec) = some labels →
        ∀ p, labels.count p =
          (s1.motion_history.map (fun d => d.primitive)).count p) :=
  save_load_round_trip s1 "g" "now" [] (by decide)

/-- C10: frame indices are contiguous.  In every state reachable by
`create_descriptor` and `clear_history` calls, the stored frame numbers
are exactly `0 .. n-1` in order: the descriptor at position `i` has
`frame_num = i`. -/
theorem frame_indices_contiguous {s : MotionDescriptorState}
    (h : Reachable s) :
    s.motion_history.map (fun d => d.frame_num) =
      List.range s.motion_history.length ∧
    ∀ i (hi : i < s.motion_history.length),
      (s.motion_history[i]).frame_num = i :=
  ⟨reachable_frame_nums h, fun i hi => reachable_frame_num_at h i hi⟩

/-- C10 witness: the invariant at the concrete one-frame state `s1`. -/
theorem frame_indices_contiguous_witness :
    s1.motion_history.map (fun d => d.frame_num) =
      List.range s1.motion_history.length ∧
    ∀ i (hi : i < s1.motion_history.length),
      (s1.motion_history[i]).frame_num = i :=
  frame_indices_contiguous
    (Reachable.create ops0 initState 1 lm21 [1, 1, 1, 1, 1] none Reachable.init)

end AIVM
